import Mathlib

/-!
Verification of the omniTAK claude-interface core: the CoT geometry encoder
(`claude_tools/tak_geometry.py`) and the HTTP transport client
(`omnitak_client/client.py`), shallowly embedded in Lean 4.

Modelling conventions:
* Python float values that are only ever interpolated into the output
  (latitudes, longitudes, radii) are carried as the `String` that the
  f-string interpolation would produce; the encoder passes them through
  verbatim, so this is exact.
* Wall-clock timestamps are modelled as seconds (`Nat`); `timedelta(hours=h)`
  becomes `h * 3600`.  The ISO rendering of timestamps is not modelled.
* The generated `uuid.uuid4()` token is an explicit parameter `gen`.
* The XML documents are modelled structurally (`CotEvent`), field for field,
  in the order and with the contents the templates in the source emit.
* JSON values are the inductive `Json`; Python truthiness, iteration and
  attribute/key errors are modelled explicitly.
* The network is an oracle (`Outcome`): either an `aiohttp.ClientError`
  before a response was obtained, or an HTTP response with a status, its
  raw body text, and the result `json.loads` would give on that text.
-/

namespace OmniTAK

/-- A JSON value, as returned by `json.loads`.  Numbers are modelled as
integers, which covers every value the claims exercise. -/
inductive Json where
  | null : Json
  | bool : Bool → Json
  | num : Int → Json
  | str : String → Json
  | arr : List Json → Json
  | obj : List (String × Json) → Json

/-- Python truthiness of a JSON value (`if x:`). -/
def pyTruthy : Json → Bool
  | .null => false
  | .bool b => b
  | .num n => n != 0
  | .str s => s != ""
  | .arr xs => !xs.isEmpty
  | .obj kvs => !kvs.isEmpty

/-- Whether a JSON value is a dict (`.get` exists only on dicts). -/
def Json.isObj : Json → Bool
  | .obj _ => true
  | _ => false

/-- Whether a JSON value is iterable in Python (`for x in v`):
strings, lists and dicts are, `None`, booleans and numbers are not. -/
def pyIterable : Json → Bool
  | .str _ => true
  | .arr _ => true
  | .obj _ => true
  | _ => false

/-- A single-quote character, used by the Python `repr` of strings. -/
def squote : String := String.mk [Char.ofNat 39]

mutual

/-- Python `repr` of a JSON value (string escaping inside `repr` is not
modelled; no theorem depends on it). -/
def pyRepr : Json → String
  | .null => "None"
  | .bool true => "True"
  | .bool false => "False"
  | .num n => toString n
  | .str s => squote ++ s ++ squote
  | .arr xs => "[" ++ String.intercalate ", " (pyReprList xs) ++ "]"
  | .obj kvs => "\x7b" ++ String.intercalate ", " (pyReprKVs kvs) ++ "\x7d"

/-- `repr` of each element of a list. -/
def pyReprList : List Json → List String
  | [] => []
  | x :: xs => pyRepr x :: pyReprList xs

/-- `repr` of each `key: value` entry of a dict. -/
def pyReprKVs : List (String × Json) → List String
  | [] => []
  | (k, v) :: kvs => (squote ++ k ++ squote ++ ": " ++ pyRepr v) :: pyReprKVs kvs

end

/-- Python `str()` of a JSON value, as used by f-string interpolation. -/
def pyStr : Json → String
  | .str s => s
  | j => pyRepr j

/-- The Python exceptions the embedded code can raise.  The source defines a
single exception class `OmniTAKError(Exception)` carrying only a message;
the other constructors are builtin Python exceptions. -/
inductive PyError where
  | omniTAK : String → PyError
  | attributeError : String → PyError
  | keyError : String → PyError
  | typeError : String → PyError
  | indexError : String → PyError
deriving DecidableEq

/-- The Python class name of an exception, the only thing an `except` clause
can select on. -/
def PyError.className : PyError → String
  | .omniTAK _ => "OmniTAKError"
  | .attributeError _ => "AttributeError"
  | .keyError _ => "KeyError"
  | .typeError _ => "TypeError"
  | .indexError _ => "IndexError"

/-- Whether an exception is the client error class (`except OmniTAKError`). -/
def PyError.isOmniTAK : PyError → Bool
  | .omniTAK _ => true
  | _ => false

/-- `d.get(k)` on a JSON value: a dict looks the key up (missing gives
`none`, Python `None`); any other value has no `.get` attribute. -/
def dictGet (j : Json) (k : String) : Except PyError (Option Json) :=
  match j with
  | .obj kvs => .ok (kvs.lookup k)
  | _ => .error (.attributeError "get")

/-- `d[k]` on a JSON value with a string key: dict lookup raising `KeyError`
when missing; any other value raises `TypeError`. -/
def pySubscript (j : Json) (k : String) : Except PyError Json :=
  match j with
  | .obj kvs =>
    match kvs.lookup k with
    | some v => .ok v
    | none => .error (.keyError k)
  | _ => .error (.typeError "subscript")

/-- Python `a or b` on an optional string (`uid or f"..."`): the default is
taken when the value is `None` or falsy (the empty string). -/
def pyOrStr (o : Option String) (d : String) : String :=
  match o with
  | some s => if s = "" then d else s
  | none => d

/-! ## Geometry encoder (`claude_tools/tak_geometry.py`) -/

/-- `LatLon`: a geographic coordinate.  The float fields are carried as the
strings their interpolation produces. -/
structure LatLon where
  lat : String
  lon : String
  hae : String := "0.0"
deriving DecidableEq

/-- `Circle`: circle geometry. -/
structure Circle where
  center : LatLon
  radius_meters : String
deriving DecidableEq

/-- `Polygon`: polygon geometry. -/
structure Polygon where
  vertices : List LatLon
deriving DecidableEq

/-- `Route`: waypoints as (position, name) pairs. -/
structure Route where
  waypoints : List (LatLon × String)
deriving DecidableEq

/-- A `<vertex .../>` element of a polyline. -/
structure Vertex where
  lat : String
  lon : String
  hae : String
deriving DecidableEq

/-- The `<point .../>` element of an event. -/
structure CotPoint where
  lat : String
  lon : String
  hae : String
  ce : String
  le : String
deriving DecidableEq

/-- The `<shape>` payload: an ellipse or a closed polyline. -/
inductive Shape where
  | ellipse : (major minor angle : String) → Shape
  | polyline : (closed : Bool) → (vertices : List Vertex) → Shape
deriving DecidableEq

/-- A `<link .../>` element. -/
structure Link where
  uid : Option String
  type : Option String
  relation : String
deriving DecidableEq

/-- The `<detail>` container, field for field as the templates emit it. -/
structure Detail where
  contact : String
  links : List Link
  shape : Option Shape
  color : Option String
  fillColor : Option String
  strokeColor : Option String
  strokeWeight : Option String
  labels_on : Bool
  remarks : Option String
deriving DecidableEq

/-- One CoT event document, structurally. -/
structure CotEvent where
  uid : String
  type : String
  how : String
  point : CotPoint
  time : Nat
  start : Nat
  stale : Nat
  detail : Detail
deriving DecidableEq

/-- The color dict literal that each of the three shape builders declares:
red, green, blue, yellow mapped to packed ARGB strings. -/
def cotColors : List (String × String) :=
  [("red", "-65536"), ("green", "-16711936"),
   ("blue", "-16776961"), ("yellow", "-256")]

/-- `colors.get(color, default)`. -/
def colorsGet (c d : String) : String := (cotColors.lookup c).getD d

/-- `create_circle_event`: one document for a circular zone.
`gen` stands for the `uuid.uuid4()` token, `now` for `datetime.utcnow()`. -/
def create_circle_event (circle : Circle) (callsign : String)
    (color : String) (uidOpt : Option String) (gen : String) (now : Nat) :
    CotEvent :=
  let uid := pyOrStr uidOpt ("circle-" ++ gen)
  let stale := now + 24 * 3600
  let color_value := colorsGet color "-65536"
  { uid := uid, type := "u-d-f", how := "h-g-i-g-o",
    point := ⟨circle.center.lat, circle.center.lon, circle.center.hae,
              "9999999", "9999999"⟩,
    time := now, start := now, stale := stale,
    detail :=
      { contact := callsign,
        links := [⟨some uid, some "a-f-G-E-V-C", "p-p"⟩],
        shape := some (.ellipse circle.radius_meters circle.radius_meters "0"),
        color := some color_value,
        fillColor := none,
        strokeColor := some color_value,
        strokeWeight := some "2.0",
        labels_on := true,
        remarks := none } }

/-- `create_polygon_event`: one document for a polygon area.  The source
reads `polygon.vertices[0]` with no count check, so an empty vertex list
raises `IndexError`; every nonempty list produces a document. -/
def create_polygon_event (polygon : Polygon) (callsign : String)
    (color : String) (filled : Bool) (uidOpt : Option String)
    (gen : String) (now : Nat) : Except PyError CotEvent :=
  let uid := pyOrStr uidOpt ("polygon-" ++ gen)
  let stale := now + 24 * 3600
  let color_value := colorsGet color "-16711936"
  let fill_value := if filled then "1342177280" else "0"
  let vertices := polygon.vertices.map fun v => Vertex.mk v.lat v.lon v.hae
  match polygon.vertices with
  | [] => .error (.indexError "list index out of range")
  | first :: _ =>
    .ok { uid := uid, type := "u-d-f", how := "h-g-i-g-o",
          point := ⟨first.lat, first.lon, first.hae, "9999999", "9999999"⟩,
          time := now, start := now, stale := stale,
          detail :=
            { contact := callsign,
              links := [⟨none, none, "p-p"⟩],
              shape := some (.polyline true vertices),
              color := some color_value,
              fillColor := some fill_value,
              strokeColor := some color_value,
              strokeWeight := some "2.0",
              labels_on := true,
              remarks := none } }

/-- The waypoint document built inside the loop of `create_route_event`. -/
def routeWaypointEvent (uid : String) (now : Nat)
    (iwp : Nat × (LatLon × String)) : CotEvent :=
  { uid := uid ++ "-wp-" ++ toString iwp.1,
    type := "b-m-p-s-p-loc", how := "h-g-i-g-o",
    point := ⟨iwp.2.1.lat, iwp.2.1.lon, iwp.2.1.hae, "10", "10"⟩,
    time := now, start := now, stale := now + 24 * 3600,
    detail :=
      { contact := iwp.2.2, links := [], shape := none,
        color := none, fillColor := none, strokeColor := none,
        strokeWeight := none, labels_on := true, remarks := none } }

/-- The link element built inside the loop of `create_route_event`. -/
def routeWaypointLink (uid : String) (iwp : Nat × (LatLon × String)) : Link :=
  ⟨some (uid ++ "-wp-" ++ toString iwp.1), some "b-m-p-s-p-loc", "c"⟩

/-- `create_route_event`: the route document followed by one waypoint
document per stop, in input order.  The source reads
`route.waypoints[0][0]` with no count check, so an empty waypoint list
raises `IndexError`; every nonempty list produces `N + 1` documents. -/
def create_route_event (route : Route) (route_name : String)
    (color : String) (uidOpt : Option String) (gen : String) (now : Nat) :
    Except PyError (List CotEvent) :=
  let uid := pyOrStr uidOpt ("route-" ++ gen)
  let stale := now + 24 * 3600
  let color_value := colorsGet color "-256"
  let waypoint_links := route.waypoints.enum.map (routeWaypointLink uid)
  let waypoint_messages := route.waypoints.enum.map (routeWaypointEvent uid now)
  match route.waypoints with
  | [] => .error (.indexError "list index out of range")
  | (first, _) :: _ =>
    .ok ({ uid := uid, type := "b-m-p-s-p-loc", how := "h-g-i-g-o",
           point := ⟨first.lat, first.lon, first.hae, "9999999", "9999999"⟩,
           time := now, start := now, stale := stale,
           detail :=
             { contact := route_name,
               links := waypoint_links,
               shape := none,
               color := some color_value,
               fillColor := none,
               strokeColor := none,
               strokeWeight := none,
               labels_on := true,
               remarks := none } } :: waypoint_messages)

/-- The marker type dict literal of `create_marker_event`. -/
def markerTypes : List (String × String) :=
  [("friendly", "a-f-G-E-S"), ("hostile", "a-h-G-E-S"),
   ("neutral", "a-n-G-E-S"), ("unknown", "a-u-G-E-S"),
   ("emergency", "b-a-o-tl"), ("medical", "b-m-p-c")]

/-- `create_marker_event`: one marker document; staleness 12 hours.
`remarks` is embedded only when truthy (a nonempty string). -/
def create_marker_event (position : LatLon) (callsign : String)
    (marker_type : String) (remarks : Option String)
    (uidOpt : Option String) (gen : String) (now : Nat) : CotEvent :=
  let uid := pyOrStr uidOpt ("marker-" ++ gen)
  let stale := now + 12 * 3600
  let event_type := (markerTypes.lookup marker_type).getD "a-f-G-E-S"
  let remarks_xml : Option String :=
    match remarks with
    | some r => if r = "" then none else some r
    | none => none
  { uid := uid, type := event_type, how := "h-g-i-g-o",
    point := ⟨position.lat, position.lon, position.hae, "10", "10"⟩,
    time := now, start := now, stale := stale,
    detail :=
      { contact := callsign, links := [], shape := none,
        color := none, fillColor := none, strokeColor := none,
        strokeWeight := none, labels_on := true,
        remarks := remarks_xml } }

/-! ## Transport client (`omnitak_client/client.py`) -/

/-- The mutable state of an `OmniTAKClient`: whether an `aiohttp` session is
open, the stored bearer token (`self._token`, any JSON value the server
returned), and the configured static API key. -/
structure ClientState where
  session : Bool
  token : Option Json
  api_key : Option String

/-- `OmniTAKClient(base_url, api_key, timeout)`: no session yet, no token. -/
def mkClient (api_key : Option String) : ClientState :=
  { session := false, token := none, api_key := api_key }

/-- `connect`: create the HTTP session if there is none. -/
def connect (st : ClientState) : ClientState :=
  if st.session then st else { st with session := true }

/-- `close`: close and drop the HTTP session if there is one.  The token and
the API key are not touched. -/
def close (st : ClientState) : ClientState :=
  if st.session then { st with session := false } else st

/-- `_get_headers`: content type, then `Authorization: Bearer <token>` when
the stored token is truthy, else `X-API-Key` when the API key is truthy. -/
def getHeaders (st : ClientState) : List (String × String) :=
  [("Content-Type", "application/json")] ++
  (match st.token with
   | some t =>
     if pyTruthy t then [("Authorization", "Bearer " ++ pyStr t)]
     else match st.api_key with
          | some k => if k ≠ "" then [("X-API-Key", k)] else []
          | none => []
   | none =>
     match st.api_key with
     | some k => if k ≠ "" then [("X-API-Key", k)] else []
     | none => [])

/-- How many headers with the given name a header list carries. -/
def countHeader (hs : List (String × String)) (k : String) : Nat :=
  (hs.filter fun h => h.1 == k).length

/-- The result of one network round trip, an environment oracle: either an
`aiohttp.ClientError` raised before any HTTP response was obtained, or a
response with its status, raw body text, and the result of `json.loads` on
that text (`.error e` standing for a `JSONDecodeError` rendered as `e`). -/
inductive Outcome where
  | connError : String → Outcome
  | response : Nat → String → Except String Json → Outcome

/-- The body of `_request` after the lazy `connect`, operating on the opened
state.  Mirrors `client.py` lines 145–167: a connection-level failure maps
to `OmniTAKError("HTTP request failed: ...")`; a status ≥ 400 decodes the
body (`error_data.get` on a non-dict JSON body raises `AttributeError`,
uncaught) and maps to `OmniTAKError("API error <status>: <msg>")`, falling
back to the raw body text; a success body that fails `json.loads` maps to
`OmniTAKError("Invalid JSON response: ...")`; otherwise the parsed JSON is
returned. -/
def requestCore (st : ClientState) (outcome : Outcome) :
    ClientState × Except PyError Json :=
  match outcome with
  | .connError e =>
    (st, .error (.omniTAK ("HTTP request failed: " ++ e)))
  | .response status text parsed =>
    if 400 ≤ status then
      match parsed with
      | .error _ =>
        (st, .error (.omniTAK ("API error " ++ toString status ++ ": " ++ text)))
      | .ok (.obj kvs) =>
        let error_msg := match kvs.lookup "message" with
                         | some v => pyStr v
                         | none => text
        (st, .error (.omniTAK ("API error " ++ toString status ++ ": " ++ error_msg)))
      | .ok _ => (st, .error (.attributeError "get"))
    else
      match parsed with
      | .error e => (st, .error (.omniTAK ("Invalid JSON response: " ++ e)))
      | .ok j => (st, .ok j)

/-- `_request`: lazily (re)creates the session, then performs the round
trip.  The request body and headers are built from the state but the
response is the oracle's; they do not influence the returned value. -/
def clientRequest (st : ClientState) (outcome : Outcome) :
    ClientState × Except PyError Json :=
  requestCore { st with session := true } outcome

/-- `login`: posts the credentials; on success stores `response["token"]`
(a `KeyError` when the body has no such key leaves the token unchanged)
and returns it. -/
def login (st : ClientState) (username password : String)
    (outcome : Outcome) : ClientState × Except PyError Json :=
  let _data : Json :=
    .obj [("username", .str username), ("password", .str password)]
  match clientRequest st outcome with
  | (st1, .error e) => (st1, .error e)
  | (st1, .ok response) =>
    match pySubscript response "token" with
    | .error e => (st1, .error e)
    | .ok v => ({ st1 with token := some v }, .ok v)

/-- `health_check`: `True` iff the body's `status` field equals
`"healthy"`; an `OmniTAKError` anywhere in the try block is swallowed into
`False`, but any other exception (such as the `AttributeError` from
`data.get` on a non-dict body) propagates. -/
def health_check (st : ClientState) (outcome : Outcome) :
    ClientState × Except PyError Bool :=
  let (st1, r) := clientRequest st outcome
  let body : Except PyError Bool :=
    r.bind fun data =>
      (dictGet data "status").map fun v =>
        match v with
        | some (.str s) => s == "healthy"
        | _ => false
  match body with
  | .error e => if e.isOmniTAK then (st1, .ok false) else (st1, .error e)
  | .ok b => (st1, .ok b)

/-- `send_cot_message`: posts the document; on a 2xx response logs each
entry of a truthy `warnings` value (iterating a truthy non-iterable value
raises `TypeError`), logs `response["message_id"]` and
`response["sent_to_count"]` (raising `KeyError` when missing), and returns
the decoded response unchanged. -/
def send_cot_message (st : ClientState) (cot_xml : String)
    (target_connections : Option (List String)) (apply_filters : Bool)
    (priority : Int) (outcome : Outcome) :
    ClientState × Except PyError Json :=
  let _data : Json :=
    .obj ([("message", .str cot_xml),
           ("apply_filters", .bool apply_filters),
           ("priority", .num priority)] ++
          (match target_connections with
           | some ts => if ts.isEmpty then [] else
               [("target_connections", .arr (ts.map .str))]
           | none => []))
  match clientRequest st outcome with
  | (st1, .error e) => (st1, .error e)
  | (st1, .ok response) =>
    match dictGet response "warnings" with
    | .error e => (st1, .error e)
    | .ok w =>
      let warnLoop : Except PyError Unit :=
        match w with
        | some v =>
          if pyTruthy v then
            if pyIterable v then .ok () else .error (.typeError "not iterable")
          else .ok ()
        | none => .ok ()
      match warnLoop with
      | .error e => (st1, .error e)
      | .ok _ =>
        match pySubscript response "message_id" with
        | .error e => (st1, .error e)
        | .ok _ =>
          match pySubscript response "sent_to_count" with
          | .error e => (st1, .error e)
          | .ok _ => (st1, .ok response)

/-! ## Claims -/

/-- Unknown color names resolve to the default passed to `colors.get`. -/
theorem colorsGet_default (c d : String) (h1 : c ≠ "red") (h2 : c ≠ "green")
    (h3 : c ≠ "blue") (h4 : c ≠ "yellow") : colorsGet c d = d := by
  simp [colorsGet, cotColors, List.lookup, beq_eq_false_iff_ne.mpr h1,
    beq_eq_false_iff_ne.mpr h2, beq_eq_false_iff_ne.mpr h3,
    beq_eq_false_iff_ne.mpr h4]

/-- C1: for every route with at least two waypoints, `create_route_event`
returns exactly N+1 documents, the route document first and then one
waypoint document per stop in input order; the route document carries
exactly N link relations, and for every i the i-th link's target uid and
the uid of the (i+1)-th document both equal `<route-id>-wp-<i>`. -/
theorem C1_route_documents (p1 : LatLon) (n1 : String) (p2 : LatLon)
    (n2 : String) (rest : List (LatLon × String)) (route_name color : String)
    (uidOpt : Option String) (gen : String) (now : Nat) :
    ∃ docs : List CotEvent,
      create_route_event ⟨(p1, n1) :: (p2, n2) :: rest⟩ route_name color
          uidOpt gen now = .ok docs ∧
      docs.length = ((p1, n1) :: (p2, n2) :: rest).length + 1 ∧
      (docs.head?.map fun d => d.detail.links.length) =
        some ((p1, n1) :: (p2, n2) :: rest).length ∧
      ∀ i, i < ((p1, n1) :: (p2, n2) :: rest).length →
        (docs.head?.map fun d => d.detail.links[i]?) =
          some (some ⟨some (pyOrStr uidOpt ("route-" ++ gen) ++ "-wp-" ++
                  toString i), some "b-m-p-s-p-loc", "c"⟩) ∧
        (docs[i+1]?.map fun d =>
            (d.uid, d.detail.contact, d.point.lat, d.point.lon)) =
          ((p1, n1) :: (p2, n2) :: rest)[i]?.map fun wp =>
            (pyOrStr uidOpt ("route-" ++ gen) ++ "-wp-" ++ toString i,
             wp.2, wp.1.lat, wp.1.lon) := by
  refine ⟨_, rfl, ?_, ?_, ?_⟩
  · simp [List.enum_length]
  · simp [List.enum_length]
  · intro i hi
    constructor
    · simp [List.getElem?_map, List.getElem?_enum,
            List.getElem?_eq_getElem hi, routeWaypointLink]
    · simp [List.getElem?_map, List.getElem?_enum,
            List.getElem?_eq_getElem hi, routeWaypointEvent]

/-- C1 witness: the concrete two-waypoint route of the spec scenario. -/
theorem C1_route_documents_witness :
    ∃ docs : List CotEvent,
      create_route_event
          ⟨(⟨"33.123", "-117.456", "0.0"⟩, "A") ::
            (⟨"33.234", "-117.567", "0.0"⟩, "B") :: []⟩ "Patrol" "yellow"
          none "g0" 0 = .ok docs ∧
      docs.length = ((⟨"33.123", "-117.456", "0.0"⟩, "A") ::
            (⟨"33.234", "-117.567", "0.0"⟩, "B") :: ([] : List (LatLon × String))).length + 1 ∧
      (docs.head?.map fun d => d.detail.links.length) =
        some ((⟨"33.123", "-117.456", "0.0"⟩, "A") ::
            (⟨"33.234", "-117.567", "0.0"⟩, "B") :: ([] : List (LatLon × String))).length ∧
      ∀ i, i < ((⟨"33.123", "-117.456", "0.0"⟩, "A") ::
            (⟨"33.234", "-117.567", "0.0"⟩, "B") :: ([] : List (LatLon × String))).length →
        (docs.head?.map fun d => d.detail.links[i]?) =
          some (some ⟨some (pyOrStr none ("route-" ++ "g0") ++ "-wp-" ++
                  toString i), some "b-m-p-s-p-loc", "c"⟩) ∧
        (docs[i+1]?.map fun d =>
            (d.uid, d.detail.contact, d.point.lat, d.point.lon)) =
          ((⟨"33.123", "-117.456", "0.0"⟩, "A") ::
            (⟨"33.234", "-117.567", "0.0"⟩, "B") :: ([] : List (LatLon × String)))[i]?.map fun wp =>
            (pyOrStr none ("route-" ++ "g0") ++ "-wp-" ++ toString i,
             wp.2, wp.1.lat, wp.1.lon) :=
  C1_route_documents ⟨"33.123", "-117.456", "0.0"⟩ "A"
    ⟨"33.234", "-117.567", "0.0"⟩ "B" [] "Patrol" "yellow" none "g0" 0

/-- C5: a marker document's stale timestamp is exactly 12 hours after its
time timestamp for every marker kind, while circle, polygon, route and
route-waypoint documents have stale exactly 24 hours after time. -/
theorem C5_staleness :
    (∀ (position : LatLon) (callsign marker_type : String)
        (remarks uidOpt : Option String) (gen : String) (now : Nat),
      (create_marker_event position callsign marker_type remarks uidOpt gen
          now).stale =
        (create_marker_event position callsign marker_type remarks uidOpt gen
          now).time + 12 * 3600) ∧
    (∀ (circle : Circle) (callsign color : String) (uidOpt : Option String)
        (gen : String) (now : Nat),
      (create_circle_event circle callsign color uidOpt gen now).stale =
        (create_circle_event circle callsign color uidOpt gen now).time +
          24 * 3600) ∧
    (∀ (v : LatLon) (rest : List LatLon) (callsign color : String)
        (filled : Bool) (uidOpt : Option String) (gen : String) (now : Nat),
      ∃ d, create_polygon_event ⟨v :: rest⟩ callsign color filled uidOpt gen
          now = .ok d ∧ d.stale = d.time + 24 * 3600) ∧
    (∀ (p : LatLon) (nm : String) (rest : List (LatLon × String))
        (route_name color : String) (uidOpt : Option String) (gen : String)
        (now : Nat),
      ∃ docs, create_route_event ⟨(p, nm) :: rest⟩ route_name color uidOpt
          gen now = .ok docs ∧
        ∀ d ∈ docs, d.stale = d.time + 24 * 3600) := by
  refine ⟨fun _ _ _ _ _ _ _ => rfl, fun _ _ _ _ _ _ => rfl,
    fun _ _ _ _ _ _ _ _ => ⟨_, rfl, rfl⟩,
    fun p nm rest _ _ _ _ _ => ⟨_, rfl, ?_⟩⟩
  intro d hd
  rcases List.mem_cons.mp hd with h | h
  · subst h; rfl
  · rcases List.mem_map.mp h with ⟨x, -, rfl⟩; rfl

/-- C5 witness: concrete marker and route instances. -/
theorem C5_staleness_witness :
    ((create_marker_event ⟨"1", "2", "0.0"⟩ "M" "hostile" none none "g"
        100).stale =
      (create_marker_event ⟨"1", "2", "0.0"⟩ "M" "hostile" none none "g"
        100).time + 12 * 3600) ∧
    ∃ docs, create_route_event ⟨(⟨"1", "2", "0.0"⟩, "A") ::
          [(⟨"3", "4", "0.0"⟩, "B")]⟩ "R" "yellow" none "g" 100 = .ok docs ∧
      ∀ d ∈ docs, d.stale = d.time + 24 * 3600 :=
  ⟨C5_staleness.1 ⟨"1", "2", "0.0"⟩ "M" "hostile" none none "g" 100,
   C5_staleness.2.2.2 ⟨"1", "2", "0.0"⟩ "A" [(⟨"3", "4", "0.0"⟩, "B")] "R"
     "yellow" none "g" 100⟩

/-- C6: in every encode call of each of the three shape builders, the four
color names resolve through the exact palette red=-65536, green=-16711936,
blue=-16776961, yellow=-256; unrecognized names fall back to red for
circles, green for polygons, yellow for routes; a filled polygon's
fillColor is 1342177280 and an unfilled one's is 0. -/
theorem C6_color_palette :
    (∀ (circle : Circle) (callsign : String) (uidOpt : Option String)
        (gen : String) (now : Nat),
      (create_circle_event circle callsign "red" uidOpt gen now).detail.color
          = some "-65536" ∧
      (create_circle_event circle callsign "green" uidOpt gen
          now).detail.color = some "-16711936" ∧
      (create_circle_event circle callsign "blue" uidOpt gen
          now).detail.color = some "-16776961" ∧
      (create_circle_event circle callsign "yellow" uidOpt gen
          now).detail.color = some "-256") ∧
    (∀ (v : LatLon) (rest : List LatLon) (callsign : String) (filled : Bool)
        (uidOpt : Option String) (gen : String) (now : Nat),
      (create_polygon_event ⟨v :: rest⟩ callsign "red" filled uidOpt gen
          now).map (fun d => d.detail.color) = .ok (some "-65536") ∧
      (create_polygon_event ⟨v :: rest⟩ callsign "green" filled uidOpt gen
          now).map (fun d => d.detail.color) = .ok (some "-16711936") ∧
      (create_polygon_event ⟨v :: rest⟩ callsign "blue" filled uidOpt gen
          now).map (fun d => d.detail.color) = .ok (some "-16776961") ∧
      (create_polygon_event ⟨v :: rest⟩ callsign "yellow" filled uidOpt gen
          now).map (fun d => d.detail.color) = .ok (some "-256")) ∧
    (∀ (p : LatLon) (nm : String) (rest : List (LatLon × String))
        (route_name : String) (uidOpt : Option String) (gen : String)
        (now : Nat),
      (create_route_event ⟨(p, nm) :: rest⟩ route_name "red" uidOpt gen
          now).map (fun docs => docs.head?.map fun d => d.detail.color) =
        .ok (some (some "-65536")) ∧
      (create_route_event ⟨(p, nm) :: rest⟩ route_name "green" uidOpt gen
          now).map (fun docs => docs.head?.map fun d => d.detail.color) =
        .ok (some (some "-16711936")) ∧
      (create_route_event ⟨(p, nm) :: rest⟩ route_name "blue" uidOpt gen
          now).map (fun docs => docs.head?.map fun d => d.detail.color) =
        .ok (some (some "-16776961")) ∧
      (create_route_event ⟨(p, nm) :: rest⟩ route_name "yellow" uidOpt gen
          now).map (fun docs => docs.head?.map fun d => d.detail.color) =
        .ok (some (some "-256"))) ∧
    (∀ (c : String), c ≠ "red" → c ≠ "green" → c ≠ "blue" → c ≠ "yellow" →
      ∀ (circle : Circle) (v : LatLon) (rest : List LatLon) (p : LatLon)
        (nm callsign : String) (rest2 : List (LatLon × String))
        (filled : Bool) (uidOpt : Option String) (gen : String) (now : Nat),
      (create_circle_event circle callsign c uidOpt gen now).detail.color =
          some "-65536" ∧
      (create_polygon_event ⟨v :: rest⟩ callsign c filled uidOpt gen
          now).map (fun d => d.detail.color) = .ok (some "-16711936") ∧
      (create_route_event ⟨(p, nm) :: rest2⟩ callsign c uidOpt gen now).map
          (fun docs => docs.head?.map fun d => d.detail.color) =
        .ok (some (some "-256"))) ∧
    (∀ (v : LatLon) (rest : List LatLon) (callsign c : String)
        (uidOpt : Option String) (gen : String) (now : Nat),
      (create_polygon_event ⟨v :: rest⟩ callsign c true uidOpt gen now).map
          (fun d => d.detail.fillColor) = .ok (some "1342177280") ∧
      (create_polygon_event ⟨v :: rest⟩ callsign c false uidOpt gen now).map
          (fun d => d.detail.fillColor) = .ok (some "0")) := by
  refine ⟨fun _ _ _ _ _ => ⟨rfl, rfl, rfl, rfl⟩,
    fun _ _ _ _ _ _ _ => ⟨rfl, rfl, rfl, rfl⟩,
    fun _ _ _ _ _ _ _ => ⟨rfl, rfl, rfl, rfl⟩,
    fun c h1 h2 h3 h4 _ _ _ _ _ _ _ _ _ _ _ => ⟨?_, ?_, ?_⟩,
    fun _ _ _ _ _ _ _ => ⟨rfl, rfl⟩⟩
  · show some (colorsGet c "-65536") = some "-65536"
    rw [colorsGet_default c _ h1 h2 h3 h4]
  · show Except.ok (some (colorsGet c "-16711936")) =
      Except.ok (some "-16711936")
    rw [colorsGet_default c _ h1 h2 h3 h4]
  · show Except.ok (some (some (colorsGet c "-256"))) =
      Except.ok (some (some "-256"))
    rw [colorsGet_default c _ h1 h2 h3 h4]

/-- C6 witness: the unrecognized color name "magenta" on concrete shapes. -/
theorem C6_color_palette_witness :
    (create_circle_event ⟨⟨"1", "2", "0.0"⟩, "5"⟩ "Z" "magenta" none "g"
        0).detail.color = some "-65536" ∧
    (create_polygon_event ⟨⟨"1", "2", "0.0"⟩ :: [⟨"3", "4", "0.0"⟩]⟩ "Z"
        "magenta" false none "g" 0).map (fun d => d.detail.color) =
      .ok (some "-16711936") ∧
    (create_route_event ⟨(⟨"1", "2", "0.0"⟩, "A") :: []⟩ "Z" "magenta" none
        "g" 0).map (fun docs => docs.head?.map fun d => d.detail.color) =
      .ok (some (some "-256")) :=
  C6_color_palette.2.2.2.1 "magenta" (by decide) (by decide) (by decide)
    (by decide) ⟨⟨"1", "2", "0.0"⟩, "5"⟩ ⟨"1", "2", "0.0"⟩
    [⟨"3", "4", "0.0"⟩] ⟨"1", "2", "0.0"⟩ "A" "Z" [] false none "g" 0

/-- C7: `create_circle_event` produces a single document whose point is the
circle center and whose shape is one ellipse with major = minor = radius
and angle 0 (the return type is a single event, so exactly one document
and one ellipse); the concrete (37.7749, -122.4194) radius-5000 "Zone"
red scenario yields major "5000", minor "5000" and color -65536. -/
theorem C7_circle_encoding :
    (∀ (circle : Circle) (callsign color : String) (uidOpt : Option String)
        (gen : String) (now : Nat),
      (create_circle_event circle callsign color uidOpt gen now).point.lat =
          circle.center.lat ∧
      (create_circle_event circle callsign color uidOpt gen now).point.lon =
          circle.center.lon ∧
      (create_circle_event circle callsign color uidOpt gen now).point.hae =
          circle.center.hae ∧
      (create_circle_event circle callsign color uidOpt gen
          now).detail.shape =
        some (.ellipse circle.radius_meters circle.radius_meters "0")) ∧
    ((create_circle_event ⟨⟨"37.7749", "-122.4194", "0"⟩, "5000"⟩ "Zone"
        "red" none "g" 0).detail.shape = some (.ellipse "5000" "5000" "0") ∧
     (create_circle_event ⟨⟨"37.7749", "-122.4194", "0"⟩, "5000"⟩ "Zone"
        "red" none "g" 0).detail.color = some "-65536") :=
  ⟨fun _ _ _ _ _ _ => ⟨rfl, rfl, rfl, rfl⟩, rfl, rfl⟩

/-- C2 counterexample: the claim says `create_polygon_event` fails with an
`EncodingError` whenever the polygon has fewer than 3 vertices and
`create_route_event` fails whenever the route has fewer than 2 waypoints.
The source performs no count validation: a 2-vertex polygon encodes
successfully, and a 1-waypoint route successfully yields 2 documents. -/
theorem C2_counterexample :
    (create_polygon_event ⟨[⟨"34.0", "-118.0", "0.0"⟩,
        ⟨"34.0", "-117.0", "0.0"⟩]⟩ "Area" "green" true none "g" 0).isOk =
      true ∧
    (create_route_event ⟨[(⟨"33.1", "-117.4", "0.0"⟩, "A")]⟩ "R" "yellow"
        none "g" 0).map List.length = .ok 2 :=
  ⟨rfl, rfl⟩

/-- C2 amended: neither builder validates counts and no `EncodingError`
exists; `create_polygon_event` succeeds on every nonempty vertex list and
raises `IndexError` (from `polygon.vertices[0]`) on an empty one;
`create_route_event` succeeds on every nonempty waypoint list, yielding
N+1 documents, and raises `IndexError` (from `route.waypoints[0][0]`) on
an empty one. -/
theorem C2_no_count_validation :
    (∀ (v : LatLon) (rest : List LatLon) (callsign color : String)
        (filled : Bool) (uidOpt : Option String) (gen : String) (now : Nat),
      (create_polygon_event ⟨v :: rest⟩ callsign color filled uidOpt gen
          now).isOk = true) ∧
    (∀ (callsign color : String) (filled : Bool) (uidOpt : Option String)
        (gen : String) (now : Nat),
      create_polygon_event ⟨[]⟩ callsign color filled uidOpt gen now =
        .error (.indexError "list index out of range")) ∧
    (∀ (p : LatLon) (nm : String) (rest : List (LatLon × String))
        (route_name color : String) (uidOpt : Option String) (gen : String)
        (now : Nat),
      ∃ docs, create_route_event ⟨(p, nm) :: rest⟩ route_name color uidOpt
          gen now = .ok docs ∧ docs.length = rest.length + 2) ∧
    (∀ (route_name color : String) (uidOpt : Option String) (gen : String)
        (now : Nat),
      create_route_event ⟨[]⟩ route_name color uidOpt gen now =
        .error (.indexError "list index out of range")) := by
  refine ⟨fun _ _ _ _ _ _ _ _ => rfl, fun _ _ _ _ _ _ => rfl,
    fun _ _ rest _ _ _ _ _ => ⟨_, rfl, ?_⟩, fun _ _ _ _ _ => rfl⟩
  simp [List.enum_length]

/-- C3 counterexample: the claim says every request-shaped operation after
`close()` fails with `ClientClosedError`.  After `close()` the very next
`send_cot_message` lazily re-creates the session and succeeds. -/
theorem C3_counterexample :
    (send_cot_message
        (close { session := true, token := none, api_key := none })
        "<event/>" none true 5
        (.response 200 "b"
          (.ok (.obj [("message_id", .str "m"),
                      ("sent_to_count", .num 2)])))).2 =
      .ok (.obj [("message_id", .str "m"), ("sent_to_count", .num 2)]) :=
  rfl

/-- The state `_request` opens is the same whether or not the session was
closed first. -/
theorem close_then_open (st : ClientState) :
    { close st with session := true } = { st with session := true } := by
  unfold close; split <;> rfl

/-- C3 amended: `close()` drops the HTTP session but is not terminal: no
`ClientClosedError` exists, and every subsequent request lazily re-creates
a session and behaves exactly as it would on the un-closed client; the
stored token survives `close()`. -/
theorem C3_close_not_terminal (st : ClientState) (outcome : Outcome)
    (cot : String) (tc : Option (List String)) (af : Bool) (pr : Int)
    (u p : String) :
    clientRequest (close st) outcome = clientRequest st outcome ∧
    send_cot_message (close st) cot tc af pr outcome =
      send_cot_message st cot tc af pr outcome ∧
    login (close st) u p outcome = login st u p outcome ∧
    (close st).token = st.token := by
  have hreq : clientRequest (close st) outcome = clientRequest st outcome := by
    unfold clientRequest; rw [close_then_open]
  refine ⟨hreq, ?_, ?_, ?_⟩
  · unfold send_cot_message; rw [hreq]
  · unfold login; rw [hreq]
  · unfold close; split <;> rfl

/-- C4 counterexample: the claim says failures surface as three
distinguishable variants (TransportError / ProtocolError / DecodingError)
of one ClientError type, which a caller can pattern-match on.  The source
raises the single class `OmniTAKError` in all three situations, carrying
only a formatted message string, so an `except` clause sees the same class
for a refused connection, a 500 response and an unparseable success body. -/
theorem C4_counterexample :
    (clientRequest (mkClient none) (.connError "Connection refused")).2 =
      .error (.omniTAK "HTTP request failed: Connection refused") ∧
    (clientRequest (mkClient none)
        (.response 500 "boom" (.error "Expecting value"))).2 =
      .error (.omniTAK "API error 500: boom") ∧
    (clientRequest (mkClient none)
        (.response 200 "nope" (.error "Expecting value"))).2 =
      .error (.omniTAK "Invalid JSON response: Expecting value") ∧
    (PyError.omniTAK "HTTP request failed: Connection refused").className =
      (PyError.omniTAK "API error 500: boom").className ∧
    (PyError.omniTAK "API error 500: boom").className =
      (PyError.omniTAK "Invalid JSON response: Expecting value").className :=
  ⟨rfl, rfl, rfl, rfl, rfl⟩

/-- C4 amended: every request failure raises the one class `OmniTAKError`
whose only payload is a message string — "HTTP request failed: ..." when no
response was obtained, "API error <status>: <msg>" for status ≥ 400 (msg
taken from a JSON object body's message field, else the raw body text),
and "Invalid JSON response: ..." when a success body cannot be parsed; the
cases differ only in that string, not in exception class or fields — with
one escape from the typed surface: a status ≥ 400 response whose
valid-JSON body is not an object raises `AttributeError` (from
`error_data.get` on a non-dict), not `OmniTAKError`. -/
theorem C4_single_error_class (st : ClientState) :
    (∀ e, (clientRequest st (.connError e)).2 =
      .error (.omniTAK ("HTTP request failed: " ++ e))) ∧
    (∀ (status : Nat) (text err : String), 400 ≤ status →
      (clientRequest st (.response status text (.error err))).2 =
        .error (.omniTAK ("API error " ++ toString status ++ ": " ++ text))) ∧
    (∀ (status : Nat) (text : String) (kvs : List (String × Json))
        (v : Json), 400 ≤ status → kvs.lookup "message" = some v →
      (clientRequest st (.response status text (.ok (.obj kvs)))).2 =
        .error (.omniTAK ("API error " ++ toString status ++ ": " ++
          pyStr v))) ∧
    (∀ (status : Nat) (text : String) (kvs : List (String × Json)),
        400 ≤ status → kvs.lookup "message" = none →
      (clientRequest st (.response status text (.ok (.obj kvs)))).2 =
        .error (.omniTAK ("API error " ++ toString status ++ ": " ++ text))) ∧
    (∀ (status : Nat) (text err : String), status < 400 →
      (clientRequest st (.response status text (.error err))).2 =
        .error (.omniTAK ("Invalid JSON response: " ++ err))) ∧
    (∀ (status : Nat) (text : String) (j : Json), 400 ≤ status →
      j.isObj = false →
      (clientRequest st (.response status text (.ok j))).2 =
        .error (.attributeError "get")) := by
  refine ⟨fun _ => rfl, ?_, ?_, ?_, ?_, ?_⟩
  · intro status text err h
    simp [clientRequest, requestCore, h]
  · intro status text kvs v h hm
    simp [clientRequest, requestCore, h, hm]
  · intro status text kvs h hm
    simp [clientRequest, requestCore, h, hm]
  · intro status text err h
    simp [clientRequest, requestCore, Nat.not_le.mpr h]
  · intro status text j h hj
    cases j <;> simp_all [Json.isObj, clientRequest, requestCore, h]

/-- C4 witness: each failure shape at a concrete input. -/
theorem C4_single_error_class_witness :
    ((400:Nat) ≤ 500 ∧
      (clientRequest (mkClient none)
          (.response 500 "boom" (.error "e"))).2 =
        .error (.omniTAK ("API error " ++ toString (500:Nat) ++ ": " ++
          "boom"))) ∧
    ([("message", Json.str "why")].lookup "message" = some (Json.str "why") ∧
      (clientRequest (mkClient none)
          (.response 404 "t" (.ok (.obj [("message", .str "why")])))).2 =
        .error (.omniTAK ("API error " ++ toString (404:Nat) ++ ": " ++
          pyStr (.str "why")))) ∧
    ((200:Nat) < 400 ∧
      (clientRequest (mkClient none)
          (.response 200 "t" (.error "bad"))).2 =
        .error (.omniTAK ("Invalid JSON response: " ++ "bad"))) ∧
    ((400:Nat) ≤ 404 ∧ (Json.arr []).isObj = false ∧
      (clientRequest (mkClient none)
          (.response 404 "[]" (.ok (.arr [])))).2 =
        .error (.attributeError "get")) :=
  ⟨⟨by decide, (C4_single_error_class (mkClient none)).2.1 500 "boom" "e"
      (by decide)⟩,
   ⟨rfl, (C4_single_error_class (mkClient none)).2.2.1 404 "t"
      [("message", .str "why")] (.str "why") (by decide) rfl⟩,
   ⟨by decide, (C4_single_error_class (mkClient none)).2.2.2.2.1 200 "t"
      "bad" (by decide)⟩,
   ⟨by decide, rfl, (C4_single_error_class (mkClient none)).2.2.2.2.2 404
      "[]" (.arr []) (by decide) rfl⟩⟩

/-- The first component of `requestCore` is always the state it was given:
no request path touches the token. -/
theorem requestCore_fst (st : ClientState) (o : Outcome) :
    (requestCore st o).1 = st := by
  unfold requestCore
  cases o with
  | connError e => rfl
  | response status text parsed =>
    dsimp only
    split
    · cases parsed with
      | error e => rfl
      | ok j => cases j <;> rfl
    · cases parsed <;> rfl

/-- C8 counterexample: the claim says a successful login stores the bearer
token and every subsequent request then attaches an Authorization: Bearer
header.  A login that succeeds with the token `""` stores it, yet the next
request falls back to the X-API-Key header because `if self._token:` is
false on an empty string. -/
theorem C8_counterexample :
    (login { session := true, token := none, api_key := some "k" } "u" "p"
        (.response 200 "b" (.ok (.obj [("token", .str "")])))).2 =
      .ok (.str "") ∧
    (login { session := true, token := none, api_key := some "k" } "u" "p"
        (.response 200 "b" (.ok (.obj [("token", .str "")])))).1.token =
      some (.str "") ∧
    getHeaders (login { session := true, token := none, api_key := some "k" }
        "u" "p" (.response 200 "b" (.ok (.obj [("token", .str "")])))).1 =
      [("Content-Type", "application/json"), ("X-API-Key", "k")] :=
  ⟨rfl, rfl, rfl⟩

/-- C8 amended: a successful login stores the returned token value and a
failed login (any error raised by the request, including a missing token
key) leaves the stored token unchanged; a request attaches exactly one
Authorization: Bearer header whenever the stored token is truthy (for a
string: nonempty), and only then is the configured API key suppressed; a
falsy or absent token falls back to X-API-Key. -/
theorem C8_login_and_headers :
    (∀ (st : ClientState) (status : Nat) (text : String)
        (kvs : List (String × Json)) (v : Json), status < 400 →
      kvs.lookup "token" = some v →
      (login st "u" "p" (.response status text (.ok (.obj kvs)))).1.token =
        some v ∧
      (login st "u" "p" (.response status text (.ok (.obj kvs)))).2 =
        .ok v) ∧
    (∀ (st : ClientState) (o : Outcome) (e : PyError),
      (login st "u" "p" o).2 = .error e →
      (login st "u" "p" o).1.token = st.token) ∧
    (∀ (st : ClientState) (t : Json), st.token = some t → pyTruthy t = true →
      getHeaders st = [("Content-Type", "application/json"),
        ("Authorization", "Bearer " ++ pyStr t)] ∧
      countHeader (getHeaders st) "Authorization" = 1 ∧
      countHeader (getHeaders st) "X-API-Key" = 0) ∧
    (∀ (st : ClientState) (k : String), st.token = none →
      st.api_key = some k → k ≠ "" →
      getHeaders st = [("Content-Type", "application/json"),
        ("X-API-Key", k)]) := by
  refine ⟨?_, ?_, ?_, ?_⟩
  · intro st status text kvs v hs hv
    unfold login clientRequest requestCore
    simp [Nat.not_le.mpr hs, pySubscript, hv]
  · intro st o e
    unfold login
    rcases hr : clientRequest st o with ⟨st1, r⟩
    have h2 : st1 = { st with session := true } := by
      have h3 := requestCore_fst { st with session := true } o
      unfold clientRequest at hr
      rw [hr] at h3
      exact h3
    subst h2
    cases r with
    | error e2 => intro _; rfl
    | ok resp =>
      cases hsub : pySubscript resp "token" with
      | error e2 => intro _; simp [hsub]
      | ok v => simp [hsub]
  · intro st t ht htruthy
    unfold getHeaders countHeader
    rw [ht]
    simp [htruthy]
  · intro st k ht hk hne
    unfold getHeaders
    rw [ht, hk]
    simp [hne]

/-- C8 witness: a successful login with a nonempty token, a failed login,
and the two header shapes, all at concrete inputs. -/
theorem C8_login_and_headers_witness :
    ((200:Nat) < 400 ∧
      [("token", Json.str "tok")].lookup "token" = some (Json.str "tok") ∧
      (login (mkClient (some "k")) "u" "p"
          (.response 200 "b" (.ok (.obj [("token", .str "tok")])))).1.token =
        some (.str "tok")) ∧
    ((login (mkClient (some "k")) "u" "p" (.connError "refused")).2 =
        .error (.omniTAK ("HTTP request failed: " ++ "refused")) ∧
      (login (mkClient (some "k")) "u" "p" (.connError "refused")).1.token =
        (mkClient (some "k")).token) ∧
    (getHeaders ⟨true, some (.str "tok"), some "k"⟩ =
      [("Content-Type", "application/json"),
       ("Authorization", "Bearer " ++ pyStr (.str "tok"))]) ∧
    (getHeaders (mkClient (some "k")) =
      [("Content-Type", "application/json"), ("X-API-Key", "k")]) :=
  ⟨⟨by decide, rfl,
     (C8_login_and_headers.1 (mkClient (some "k")) 200 "b"
       [("token", .str "tok")] (.str "tok") (by decide) rfl).1⟩,
   ⟨rfl, C8_login_and_headers.2.1 (mkClient (some "k"))
      (.connError "refused") (.omniTAK ("HTTP request failed: " ++ "refused"))
      rfl⟩,
   (C8_login_and_headers.2.2.1 ⟨true, some (.str "tok"), some "k"⟩
     (.str "tok") rfl rfl).1,
   C8_login_and_headers.2.2.2 (mkClient (some "k")) "k" rfl rfl
     (by decide)⟩

/-- C9 counterexample: the claim says `health_check` never raises.  A 200
response whose body is the JSON array `[]` makes `data.get("status")`
raise `AttributeError`, which is not an `OmniTAKError` and propagates. -/
theorem C9_counterexample :
    (health_check (mkClient none) (.response 200 "[]" (.ok (.arr [])))).2 =
      .error (.attributeError "get") :=
  rfl

/-- C9 amended: `health_check` swallows every `OmniTAKError` into `False`
(transport failure, error status, unparseable success body) and on a 2xx
JSON-object body returns `True` exactly when the `status` field equals
`"healthy"`; but a response whose JSON body is not an object (for any
status) raises `AttributeError`, which is not swallowed. -/
theorem C9_health_check :
    (∀ (st : ClientState) (e : String),
      (health_check st (.connError e)).2 = .ok false) ∧
    (∀ (st : ClientState) (status : Nat) (text err : String), 400 ≤ status →
      (health_check st (.response status text (.error err))).2 = .ok false) ∧
    (∀ (st : ClientState) (status : Nat) (text err : String), status < 400 →
      (health_check st (.response status text (.error err))).2 = .ok false) ∧
    (∀ (st : ClientState) (status : Nat) (text : String)
        (kvs : List (String × Json)), 400 ≤ status →
      (health_check st (.response status text (.ok (.obj kvs)))).2 =
        .ok false) ∧
    (∀ (st : ClientState) (status : Nat) (text : String)
        (kvs : List (String × Json)), status < 400 →
      (health_check st (.response status text (.ok (.obj kvs)))).2 =
        .ok (match kvs.lookup "status" with
             | some (.str s) => s == "healthy"
             | _ => false)) ∧
    (∀ (st : ClientState) (status : Nat) (text : String) (j : Json),
      j.isObj = false →
      (health_check st (.response status text (.ok j))).2 =
        .error (.attributeError "get")) := by
  refine ⟨fun _ _ => rfl, ?_, ?_, ?_, ?_, ?_⟩
  · intro st status text err h
    simp [health_check, clientRequest, requestCore, h, Except.bind,
      PyError.isOmniTAK]
  · intro st status text err h
    simp [health_check, clientRequest, requestCore, Nat.not_le.mpr h,
      Except.bind, PyError.isOmniTAK]
  · intro st status text kvs h
    simp [health_check, clientRequest, requestCore, h, Except.bind,
      PyError.isOmniTAK]
  · intro st status text kvs h
    simp [health_check, clientRequest, requestCore, Nat.not_le.mpr h,
      Except.bind, Except.map, dictGet, PyError.isOmniTAK]
  · intro st status text j hj
    rcases Nat.lt_or_ge status 400 with h | h
    · cases j <;> simp_all [Json.isObj, health_check, clientRequest,
        requestCore, Nat.not_le.mpr h, Except.bind, Except.map, dictGet,
        PyError.isOmniTAK]
    · cases j <;> simp_all [Json.isObj, health_check, clientRequest,
        requestCore, h, Except.bind, Except.map, dictGet,
        PyError.isOmniTAK]

/-- C9 witness: each health_check shape at a concrete input. -/
theorem C9_health_check_witness :
    ((400:Nat) ≤ 500 ∧
      (health_check (mkClient none) (.response 500 "x" (.error "e"))).2 =
        .ok false) ∧
    ((200:Nat) < 400 ∧
      (health_check (mkClient none)
          (.response 200 "b"
            (.ok (.obj [("status", .str "healthy")])))).2 =
        .ok (match [("status", Json.str "healthy")].lookup "status" with
             | some (.str s) => s == "healthy"
             | _ => false)) ∧
    ((Json.str "ok").isObj = false ∧
      (health_check (mkClient none)
          (.response 200 "\x22ok\x22" (.ok (.str "ok")))).2 =
        .error (.attributeError "get")) :=
  ⟨⟨by decide, C9_health_check.2.1 (mkClient none) 500 "x" "e" (by decide)⟩,
   ⟨by decide, C9_health_check.2.2.2.2.1 (mkClient none) 200 "b"
      [("status", .str "healthy")] (by decide)⟩,
   ⟨rfl, C9_health_check.2.2.2.2.2 (mkClient none) 200 "\x22ok\x22"
      (.str "ok") rfl⟩⟩

/-- C10 counterexample: the claim says `send_cot_message` never raises
because of the presence or content of a `warnings` field.  A 2xx response
carrying `warnings: 5` (truthy, not iterable) makes the logging loop
`for warning in response["warnings"]` raise `TypeError`. -/
theorem C10_counterexample :
    (send_cot_message (mkClient none) "<e/>" none true 5
        (.response 200 "b"
          (.ok (.obj [("message_id", .str "m"), ("sent_to_count", .num 1),
                      ("warnings", .num 5)])))).2 =
      .error (.typeError "not iterable") :=
  rfl

/-- C10 amended: on a 2xx JSON-object response, `send_cot_message` returns
the decoded dictionary verbatim whenever the `warnings` value is absent,
falsy, or iterable; a truthy non-iterable `warnings` value raises
`TypeError`; and a body lacking `message_id` (or lacking `sent_to_count`
while `message_id` is present) raises `KeyError` even though the server
declared success. -/
theorem C10_send_cot_message :
    (∀ (st : ClientState) (cot : String) (tc : Option (List String))
        (af : Bool) (pr : Int) (status : Nat) (text : String)
        (kvs : List (String × Json)), status < 400 →
      (match kvs.lookup "warnings" with
       | some v => pyTruthy v = false ∨ pyIterable v = true
       | none => True) →
      (∃ m, kvs.lookup "message_id" = some m) →
      (∃ sc, kvs.lookup "sent_to_count" = some sc) →
      (send_cot_message st cot tc af pr
          (.response status text (.ok (.obj kvs)))).2 = .ok (.obj kvs)) ∧
    (∀ (st : ClientState) (cot : String) (tc : Option (List String))
        (af : Bool) (pr : Int) (status : Nat) (text : String)
        (kvs : List (String × Json)) (v : Json), status < 400 →
      kvs.lookup "warnings" = some v → pyTruthy v = true →
      pyIterable v = false →
      (send_cot_message st cot tc af pr
          (.response status text (.ok (.obj kvs)))).2 =
        .error (.typeError "not iterable")) ∧
    (∀ (st : ClientState) (cot : String) (tc : Option (List String))
        (af : Bool) (pr : Int) (status : Nat) (text : String)
        (kvs : List (String × Json)), status < 400 →
      (match kvs.lookup "warnings" with
       | some v => pyTruthy v = false ∨ pyIterable v = true
       | none => True) →
      kvs.lookup "message_id" = none →
      (send_cot_message st cot tc af pr
          (.response status text (.ok (.obj kvs)))).2 =
        .error (.keyError "message_id")) ∧
    (∀ (st : ClientState) (cot : String) (tc : Option (List String))
        (af : Bool) (pr : Int) (status : Nat) (text : String)
        (kvs : List (String × Json)), status < 400 →
      (match kvs.lookup "warnings" with
       | some v => pyTruthy v = false ∨ pyIterable v = true
       | none => True) →
      (∃ m, kvs.lookup "message_id" = some m) →
      kvs.lookup "sent_to_count" = none →
      (send_cot_message st cot tc af pr
          (.response status text (.ok (.obj kvs)))).2 =
        .error (.keyError "sent_to_count")) := by
  have warnOk : ∀ (kvs : List (String × Json)),
      (match kvs.lookup "warnings" with
       | some v => pyTruthy v = false ∨ pyIterable v = true
       | none => True) →
      (match kvs.lookup "warnings" with
       | some v =>
         if pyTruthy v then
           if pyIterable v then Except.ok () else
             Except.error (PyError.typeError "not iterable")
         else Except.ok ()
       | none => Except.ok ()) = (.ok ()) := by
    intro kvs hw
    cases hwv : kvs.lookup "warnings" with
    | none => rfl
    | some v =>
      rw [hwv] at hw
      rcases hw with h | h
      · simp [h]
      · cases htr : pyTruthy v <;> simp [h]
  refine ⟨?_, ?_, ?_, ?_⟩
  · intro st cot tc af pr status text kvs hs hw hm hsc
    obtain ⟨m, hm⟩ := hm
    obtain ⟨sc, hsc⟩ := hsc
    simp only [send_cot_message, clientRequest, requestCore,
      Nat.not_le.mpr hs, if_false, dictGet]
    rw [warnOk kvs hw]
    simp [pySubscript, hm, hsc]
  · intro st cot tc af pr status text kvs v hs hwv htr hit
    simp only [send_cot_message, clientRequest, requestCore,
      Nat.not_le.mpr hs, if_false, dictGet]
    rw [hwv]
    simp [htr, hit]
  · intro st cot tc af pr status text kvs hs hw hm
    simp only [send_cot_message, clientRequest, requestCore,
      Nat.not_le.mpr hs, if_false, dictGet]
    rw [warnOk kvs hw]
    simp [pySubscript, hm]
  · intro st cot tc af pr status text kvs hs hw hm hsc
    obtain ⟨m, hm⟩ := hm
    simp only [send_cot_message, clientRequest, requestCore,
      Nat.not_le.mpr hs, if_false, dictGet]
    rw [warnOk kvs hw]
    simp [pySubscript, hm, hsc]

/-- C10 witness: a verbatim 2xx return with a warnings list, and a missing
message_id raising KeyError, at concrete inputs. -/
theorem C10_send_cot_message_witness :
    ((200:Nat) < 400 ∧
      (send_cot_message (mkClient none) "<e/>" none true 5
          (.response 200 "b"
            (.ok (.obj [("message_id", .str "m"),
                        ("sent_to_count", .num 1),
                        ("warnings", .arr [.str "w1"])])))).2 =
        .ok (.obj [("message_id", .str "m"), ("sent_to_count", .num 1),
                   ("warnings", .arr [.str "w1"])])) ∧
    ((send_cot_message (mkClient none) "<e/>" none true 5
          (.response 200 "b" (.ok (.obj [("ok", .bool true)])))).2 =
        .error (.keyError "message_id")) :=
  ⟨⟨by decide,
     C10_send_cot_message.1 (mkClient none) "<e/>" none true 5 200 "b"
       [("message_id", .str "m"), ("sent_to_count", .num 1),
        ("warnings", .arr [.str "w1"])] (by decide) (Or.inr rfl)
       ⟨.str "m", rfl⟩ ⟨.num 1, rfl⟩⟩,
   C10_send_cot_message.2.2.1 (mkClient none) "<e/>" none true 5 200 "b"
     [("ok", .bool true)] (by decide) (by trivial) rfl⟩

end OmniTAK
